import Mathlib

/-!
Shallow embedding of `src/main.c` of apdbctl (Apple Pro Display XDR brightness
control tool), and proofs about its device-matching predicate, brightness codec
and CLI argument handling.

Machine integers are modelled as `Nat` (unsigned) or `Int` (signed), with
explicit `% 2 ^ w` where wrap-around matters.  The C expression
`(absolute - BRIGHTNESS_MIN) / (float)BRIGHTNESS_RANGE * 100` performs IEEE-754
binary32 arithmetic (round to nearest, ties to even); it is modelled exactly by
dyadic rationals: a nonnegative binary32 value is a pair `⟨mant, shift⟩`
denoting `mant / 2 ^ shift`, and each operation rounds the exact rational
result to 24 significant bits, ties to even.  All values arising here are far
from overflow and underflow, so infinities and subnormals need no treatment.
-/

namespace Apdbctl

/-- Constant `APPLE_INC 0x05ac` from `main.c`. -/
def APPLE_INC : Nat := 0x05ac

/-- Constant `PRO_DISPLAY_XDR 0x9243` from `main.c`. -/
def PRO_DISPLAY_XDR : Nat := 0x9243

/-- Constant `BRIGHTNESS_REPORT_ID 0x1` from `main.c`. -/
def BRIGHTNESS_REPORT_ID : Nat := 0x1

/-- Constant `BRIGHTNESS_REPORT_PAGE 0x8005` from `main.c`. -/
def BRIGHTNESS_REPORT_PAGE : Nat := 0x8005

/-- Constant `BRIGHTNESS_REPORT_USAGE 0x1009` from `main.c`. -/
def BRIGHTNESS_REPORT_USAGE : Nat := 0x1009

/-- Constant `BRIGHTNESS_MIN 0x0190` (400) from `main.c`. -/
def BRIGHTNESS_MIN : Nat := 0x0190

/-- Constant `BRIGHTNESS_MAX 0xc350` (50000) from `main.c`. -/
def BRIGHTNESS_MAX : Nat := 0xc350

/-- Constant `BRIGHTNESS_RANGE (BRIGHTNESS_MAX - BRIGHTNESS_MIN)` (49600) from `main.c`. -/
def BRIGHTNESS_RANGE : Nat := BRIGHTNESS_MAX - BRIGHTNESS_MIN

/-- One step of `floorLog2`: consume four bits, or finish when `m < 16`.
Written with `cond` on `Nat.ble` (definitionally `if _ ≤ _ then _ else _` on
naturals) because the kernel reduces those in constant time, which the
exhaustive checks below need. -/
def floorLog2Step (go : Nat → Nat) (m : Nat) : Nat :=
  cond (Nat.ble m 15)
    (cond (Nat.ble m 1) 0 (cond (Nat.ble m 3) 1 (cond (Nat.ble m 7) 2 3)))
    (go (m / 16) + 4)

/-- Floor of the base-2 logarithm, correct for `0 < n < 2 ^ 96` (every number
it is applied to here is below `2 ^ 91`).  `Nat.log2` is defined by
well-founded recursion and does not reduce by kernel computation; this
fuel-driven `Nat.rec` form reduces in `O(log n)` kernel steps. -/
def floorLog2 (n : Nat) : Nat :=
  Nat.rec (motive := fun _ => Nat → Nat) (fun _ => 0)
    (fun _ ih => floorLog2Step ih) 24 n

/-- Round the rational `a / b` to the nearest integer, ties to even:
if the remainder is more than half of `b`, round up; if less, round down;
on a tie keep the even quotient. -/
def roundHalfEven (a b : Nat) : Nat :=
  cond (Nat.ble b (2 * (a % b)))
    (cond (Nat.ble (2 * (a % b)) b)
      (cond (Nat.beq (a / b % 2) 0) (a / b) (a / b + 1))
      (a / b + 1))
    (a / b)

/-- A nonnegative IEEE-754 binary32 value, as the dyadic rational
`mant / 2 ^ shift`.  The representation is not normalised (the same value may
appear with different pairs); every operation below depends only on the
denoted rational, so this loses nothing. -/
structure F32 where
  mant : Nat
  shift : Nat
  deriving DecidableEq, Repr

/-- Rounding of `n / d ≥ 1` at its known binade `e = ⌊log₂ (n / d)⌋`: scale
so that 24 significand bits remain and round, ties to even. -/
def roundF32ge (n d e : Nat) : F32 :=
  cond (Nat.ble e 23)
    ⟨roundHalfEven (n * 2 ^ (23 - e)) d, 23 - e⟩
    ⟨roundHalfEven n (d * 2 ^ (e - 23)) * 2 ^ (e - 23), 0⟩

/-- Rounding of `n / d < 1` at its known binade `-k`, i.e.
`2 ^ (-k) ≤ n / d < 2 ^ (-k+1)`: scale up by `2 ^ (23 + k)` and round, ties
to even. -/
def roundF32lt (n d k : Nat) : F32 :=
  ⟨roundHalfEven (n * 2 ^ (23 + k)) d, 23 + k⟩

/-- Round the exact nonnegative rational `n / d` (with `d > 0`) to the nearest
binary32 value: locate the binade `2 ^ e ≤ n / d < 2 ^ (e + 1)` (for a value
below one, `k` is the smallest shift with `d ≤ n * 2 ^ k`) and round the
significand to 24 bits, ties to even.  A 24-bit carry (significand reaching
`2 ^ 24`) needs no renormalisation because the pair already denotes the
correct rational.  `n = 0` yields zero; `d = 0` never occurs on the paths
modelled here. -/
def roundF32 (n d : Nat) : F32 :=
  cond (Nat.beq n 0) ⟨0, 0⟩
    (cond (Nat.ble d n)
      (roundF32ge n d (floorLog2 (n / d)))
      (roundF32lt n d (floorLog2 ((d + n - 1) / n - 1) + 1)))

/-- Conversion of a `uint32_t` to `float` (exact for the values ≤ 2 ^ 24 used
here, correctly rounded otherwise). -/
def f32ofNat (n : Nat) : F32 := roundF32 n 1

/-- binary32 division: the exact quotient, rounded. -/
def f32div (a b : F32) : F32 := roundF32 (a.mant * 2 ^ b.shift) (b.mant * 2 ^ a.shift)

/-- binary32 multiplication: the exact product, rounded. -/
def f32mul (a b : F32) : F32 := roundF32 (a.mant * b.mant) (2 ^ (a.shift + b.shift))

/-- C cast `(uint8_t)` applied to a nonnegative `float`: truncation toward
zero (the values reached here all lie in `[0, 100]`, inside `uint8_t` range;
the `% 256` records the width of the destination type). -/
def f32toUInt8 (a : F32) : Nat := a.mant / 2 ^ a.shift % 256

/-- Function `to_percent_brightness` from `main.c`:
`(uint8_t)((absolute - BRIGHTNESS_MIN) / (float)BRIGHTNESS_RANGE * 100)`,
with the subtraction on `uint32_t` and the division and multiplication in
binary32 (`BRIGHTNESS_RANGE` is cast to `float`; the `uint32_t` difference and
the `int` literal `100` are converted to `float` by the usual arithmetic
conversions, exactly, being below `2 ^ 24`). -/
def to_percent_brightness (absolute : Nat) : Nat :=
  f32toUInt8 (f32mul (f32div (f32ofNat (absolute - BRIGHTNESS_MIN))
    (f32ofNat BRIGHTNESS_RANGE)) (f32ofNat 100))

/-- Function `to_absolute_brightness` from `main.c`:
`(percentage * BRIGHTNESS_RANGE / 100) + BRIGHTNESS_MIN`, pure `int`
arithmetic (no overflow: the product is at most `100 * 49600 < 2 ^ 31`). -/
def to_absolute_brightness (percentage : Nat) : Nat :=
  percentage * BRIGHTNESS_RANGE / 100 + BRIGHTNESS_MIN

/-- The expected value of `to_percent_brightness (x + 400)` for
`x = absolute - 400 ∈ [0, 49600]`: the exact integer `⌊x / 496⌋`, except at
`x = 26288` and `x = 29264` (that is, absolute 26688 and 29664), where the
binary32 rounding of `x / 49600` falls just below `0.53` resp. `0.59` and the
truncated product loses one unit. -/
def percentTableEntry (x : Nat) : Nat :=
  x / 496 - cond (Nat.beq x 26288 || Nat.beq x 29264) 1 0

/-- One cell of the exhaustive check of `to_percent_brightness`. -/
def checkPercentCell (x : Nat) : Bool :=
  to_percent_brightness (x + 400) == percentTableEntry x

/-- Row check: `checkRow f base k` checks `f` on `base, base+1, …, base+k-1`.  Written
with a bare `Nat.rec` so that kernel reduction is linear in `k` (the
equation compiler's `brecOn` encoding reduces quadratically). -/
def checkRow (f : Nat → Bool) (base k : Nat) : Bool :=
  Nat.rec true (fun j ih => f (base + j) && ih) k

/-- Grid check: `checkRows f c lo r` checks `f` on `c*lo, c*lo + 1, …, c*(lo+r) - 1`,
row by row (rows `lo, …, lo+r-1`, each of width `c`).  The row-range form
lets the exhaustive checks be split across several theorems, keeping each
kernel-reduction job small. -/
def checkRows (f : Nat → Bool) (c lo r : Nat) : Bool :=
  Nat.rec true (fun q ih => checkRow f (c * (lo + q)) c && ih) r

/-! Device matcher: report-descriptor signature and the enumeration loop. -/

/-- Record `struct hid_report_descriptor` from `main.c` (packed).  Field widths:
`uint16_t` and `uint8_t` fields are `Nat`, the signed `int16_t
logical_minimum` and `int32_t logical_maximum` are `Int`. -/
structure hid_report_descriptor where
  usage_page : Nat
  usage : Nat
  collection : Nat
  report_id : Nat
  report_usage_pages : Nat × Nat × Nat
  report_usage : Nat
  logical_minimum_size : Nat
  logical_minimum : Int
  logical_maximum_size : Nat
  logical_maximum : Int
  unit : Nat × Nat × Nat × Nat × Nat
  unit_exponent : Nat
  report_size : Nat
  report_count : Nat
  feature : Nat
  deriving DecidableEq, Repr

/-- Size `sizeof(struct hid_report_descriptor)`: the packed byte size
2+2+2+2+3+2+1+2+1+4+5+2+2+2+2 = 34. -/
def hid_report_descriptor_size : Nat := 34

/-- The five-condition comparison returned by
`hid_is_apple_pro_display_xdr_brightness_control_device` (lines 132-136 of
`main.c`) once the descriptor has been read.  `report_id >> 8` on the
`uint16_t` field is `Nat` right shift. -/
def descriptor_matches (d : hid_report_descriptor) : Bool :=
  d.usage_page == BRIGHTNESS_REPORT_PAGE &&
  d.report_usage == BRIGHTNESS_REPORT_USAGE &&
  d.report_id >>> 8 == BRIGHTNESS_REPORT_ID &&
  d.logical_minimum == (BRIGHTNESS_MIN : Int) &&
  d.logical_maximum == (BRIGHTNESS_MAX : Int)

/-- Size `sizeof(struct brightness_feature_report)`: 1 + 4 + 2 = 7 packed bytes. -/
def brightness_feature_report_size : Nat := 7

/-- The transport-level behaviour of one opened HID device (the hidapi
collaborator's responses, abstracted): the return value and bytes produced by
`hid_get_report_descriptor`, by `hid_get_feature_report` (the report buffer
contents after the call), and the return value of
`hid_send_feature_report`. -/
structure hid_device where
  descriptor_read_ret : Int
  descriptor : hid_report_descriptor
  get_report_ret : Int
  get_report_buffer : List (Fin 256)
  send_report_ret : Int
  deriving DecidableEq, Repr

/-- One entry of the `hid_enumerate` list: the identity pre-filter fields of
`struct hid_device_info`, and the outcome of `hid_open_path` on its path
(`none` models a `NULL` return). -/
structure hid_device_info where
  vendor_id : Nat
  product_id : Nat
  open_result : Option hid_device
  deriving DecidableEq, Repr

/-- Function `is_apple_pro_display_xdr_device` from `main.c`. -/
def is_apple_pro_display_xdr_device (info : hid_device_info) : Bool :=
  info.vendor_id == APPLE_INC && info.product_id == PRO_DISPLAY_XDR

/-- Function `hid_is_apple_pro_display_xdr_brightness_control_device` from `main.c`:
a descriptor read returning any byte count other than
`sizeof(struct hid_report_descriptor)` is a non-match; otherwise the five
descriptor conditions decide. -/
def hid_is_apple_pro_display_xdr_brightness_control_device (device : hid_device) : Bool :=
  if device.descriptor_read_ret ≠ (hid_report_descriptor_size : Int) then false
  else descriptor_matches device.descriptor

/-- Transport operations performed while matching and acting on devices,
recorded as a trace so that "no device interaction happened" is expressible. -/
inductive DeviceAction where
  | enumerate
  | openPath
  | readDescriptor
  | close
  | sendReport (report : List (Fin 256))
  deriving DecidableEq, Repr

/-- The candidate loop of
`hid_open_apple_pro_display_xdr_brightness_control_device` in `main.c`:
skip non-Apple-XDR identities without opening; a failed open is logged and
skipped; an opened candidate whose descriptor does not match is closed and
skipped; the first match is returned open.  Paired with the trace of
transport operations performed. -/
def hid_open_loop : List hid_device_info → Option hid_device × List DeviceAction
  | [] => (none, [])
  | it :: rest =>
    if is_apple_pro_display_xdr_device it then
      match it.open_result with
      | none => ((hid_open_loop rest).1, DeviceAction.openPath :: (hid_open_loop rest).2)
      | some device =>
        if hid_is_apple_pro_display_xdr_brightness_control_device device then
          (some device, [DeviceAction.openPath, DeviceAction.readDescriptor])
        else
          ((hid_open_loop rest).1,
            DeviceAction.openPath :: DeviceAction.readDescriptor :: DeviceAction.close ::
              (hid_open_loop rest).2)
    else hid_open_loop rest

/-- Function `hid_open_apple_pro_display_xdr_brightness_control_device` from `main.c`:
enumerate, then run the candidate loop. -/
def hid_open_apple_pro_display_xdr_brightness_control_device
    (devices : List hid_device_info) : Option hid_device × List DeviceAction :=
  ((hid_open_loop devices).1, DeviceAction.enumerate :: (hid_open_loop devices).2)

/-! Brightness codec: the 7-byte feature report. -/

/-- Little-endian decoding of the first four bytes of a byte list (the
`uint32_t brightness` field as laid out in memory; missing bytes read as the
zero-initialised report memory). -/
def le32_decode (bytes : List (Fin 256)) : Nat :=
  (bytes.getD 0 0).val + 2 ^ 8 * (bytes.getD 1 0).val +
    2 ^ 16 * (bytes.getD 2 0).val + 2 ^ 24 * (bytes.getD 3 0).val

/-- Little-endian encoding of a `uint32_t` value into four bytes. -/
def le32_encode (v : Nat) : List (Fin 256) :=
  [⟨v % 256, by omega⟩, ⟨v / 2 ^ 8 % 256, by omega⟩,
   ⟨v / 2 ^ 16 % 256, by omega⟩, ⟨v / 2 ^ 24 % 256, by omega⟩]

/-- Conversion of a `uint32_t` value to `int32_t` (the implicit conversion at
the `return le32toh(report.brightness)` of `hid_get_brightness`, whose
declared return type is `int32_t`): two's-complement wrap-around. -/
def int32_of_uint32 (n : Nat) : Int :=
  if n < 2 ^ 31 then (n : Int) else (n : Int) - 2 ^ 32

/-- Function `hid_get_brightness` from `main.c`: `-1` when `hid_get_feature_report`
returns a negative count; otherwise the little-endian 32-bit `brightness`
field (bytes 1-4 of the report buffer) — the returned byte count is not
compared against `sizeof(report)`. -/
def hid_get_brightness (device : hid_device) : Int :=
  if device.get_report_ret < 0 then -1
  else int32_of_uint32 (le32_decode (device.get_report_buffer.drop 1))

/-- The report memory sent by `hid_set_brightness`: zero-initialised,
`report_id = BRIGHTNESS_REPORT_ID`, `brightness = htole32(brightness)`,
2 bytes zero padding — 7 bytes in total. -/
def brightness_feature_report_bytes (brightness : Nat) : List (Fin 256) :=
  ⟨BRIGHTNESS_REPORT_ID, by decide⟩ :: le32_encode brightness ++ [0, 0]

/-- The `assert` expression at the top of `hid_set_brightness`:
`brightness >= BRIGHTNESS_MIN && brightness <= BRIGHTNESS_MAX`. -/
def hid_set_brightness_assert (brightness : Nat) : Bool :=
  decide (BRIGHTNESS_MIN ≤ brightness) && decide (brightness ≤ BRIGHTNESS_MAX)

/-- Function `hid_set_brightness` from `main.c`: success flag (false when
`hid_send_feature_report` returns a negative count), paired with the report
bytes handed to the transport. -/
def hid_set_brightness (device : hid_device) (brightness : Nat) : Bool × List (Fin 256) :=
  let report := brightness_feature_report_bytes brightness
  if device.send_report_ret < 0 then (false, report) else (true, report)

/-! CLI verbs. -/

/-- Function `print_brightness` from `main.c`: exit status paired with the printed
value, if any (`%u` prints the `int32_t` reinterpreted as `uint32_t`; on the
`-%` path the value printed is `to_percent_brightness(brightness)`). -/
def print_brightness (devices : List hid_device_info) (as_percentage_point : Bool) :
    Nat × Option Nat :=
  match (hid_open_apple_pro_display_xdr_brightness_control_device devices).1 with
  | none => (2, none)
  | some device =>
    let brightness := hid_get_brightness device
    if brightness < 0 then (3, none)
    else if as_percentage_point then (0, some (to_percent_brightness brightness.toNat))
    else (0, some brightness.toNat)

/-- The brightness value `set_brightness` hands to `hid_set_brightness`
(the argument expression at line 336 of `main.c`). -/
def set_brightness_target (value : Nat) (as_percentage_point : Bool) : Nat :=
  if as_percentage_point then to_absolute_brightness value else value

/-- Function `set_brightness` from `main.c`: range-validate first (`value < 0` on the
unsigned percentage path is identically false and drops out), and only then
open a device and send the report.  Exit status paired with the transport
trace. -/
def set_brightness (devices : List hid_device_info) (value : Nat)
    (as_percentage_point : Bool) : Nat × List DeviceAction :=
  if as_percentage_point ∧ 100 < value then (1, [])
  else if ¬as_percentage_point ∧ (value < BRIGHTNESS_MIN ∨ BRIGHTNESS_MAX < value) then (1, [])
  else
    let opened := hid_open_apple_pro_display_xdr_brightness_control_device devices
    match opened.1 with
    | none => (2, opened.2)
    | some device =>
      let sent := hid_set_brightness device (set_brightness_target value as_percentage_point)
      (if sent.1 then 0 else 3, opened.2 ++ [DeviceAction.sendReport sent.2])

/-! Argument parsing (`set <value>`). -/

/-- C-locale `isspace`, as consumed by `strtoul`. -/
def isSpaceChar (c : Char) : Bool :=
  c == ' ' || c == '\t' || c == '\n' || c == '\x0b' || c == '\x0c' || c == '\r'

/-- Decimal digits to a natural number, most significant first. -/
def digitsToNat (ds : List Char) : Nat :=
  ds.foldl (fun a c => 10 * a + (c.toNat - 48)) 0

/-- Constant `ULONG_MAX` on the (64-bit) targets this program builds for. -/
def ULONG_MAX : Nat := 2 ^ 64 - 1

/-- Result of `strtoul(parameter, &last, 10)`: the `unsigned long` value, the
suffix `last` points into, and whether any digits were converted (when not,
`last` equals the original `parameter` pointer and the value is `0`). -/
structure strtoul_result where
  value : Nat
  rest : List Char
  converted : Bool
  deriving DecidableEq, Repr

/-- Modelled from the C standard library contract used by
`parse_brightness_parameter`: `strtoul(s, &last, 10)` skips C-locale
whitespace, accepts one optional `+` or `-`, then consumes decimal digits;
with no digits there is no conversion; a value whose magnitude exceeds
`ULONG_MAX` yields `ULONG_MAX`; a `-` sign negates modulo `2 ^ 64`
(unsigned wrap-around).  `argv` strings contain no embedded NUL, so the
terminator of the C string corresponds to the end of the list. -/
def strtoul10 (s : List Char) : strtoul_result :=
  let s1 := s.dropWhile isSpaceChar
  let signAndRest :=
    match s1 with
    | '+' :: r => (false, r)
    | '-' :: r => (true, r)
    | _ => (false, s1)
  let digits := signAndRest.2.takeWhile Char.isDigit
  let rest := signAndRest.2.dropWhile Char.isDigit
  if digits.isEmpty then ⟨0, s, false⟩
  else
    let raw := digitsToNat digits
    let v := if ULONG_MAX < raw then ULONG_MAX
      else if signAndRest.1 then (2 ^ 64 - raw) % 2 ^ 64 else raw
    ⟨v, rest, true⟩

/-- Function `parse_brightness_parameter` from `main.c`.  `*value` is a `uint32_t`,
so the `unsigned long` result of `strtoul` is truncated modulo `2 ^ 32`; the
rejection condition is, with C operator precedence,
`(parameter == last) || (!(*last == '%' && *(last+1) == '\0') && *value <= 100)`;
on acceptance `*as_percentage_point = (*last == '%')`. -/
def parse_brightness_parameter (parameter : List Char) : Option (Nat × Bool) :=
  let r := strtoul10 parameter
  let value := r.value % 2 ^ 32
  if !r.converted || (!(r.rest == ['%']) && decide (value ≤ 100)) then none
  else some (value, r.rest.head? == some '%')

/-- The `set` branch of `main` in `main.c`: a parse failure exits with
status 1 before any device interaction; otherwise `set_brightness` runs. -/
def run_set (parameter : List Char) (devices : List hid_device_info) :
    Nat × List DeviceAction :=
  match parse_brightness_parameter parameter with
  | none => (1, [])
  | some pv => set_brightness devices pv.1 pv.2

/-! Concrete transport fixtures used by witnesses and counterexamples. -/

/-- A descriptor satisfying all five match conditions. -/
def matchingDescriptor : hid_report_descriptor :=
  ⟨0x8005, 0x0001, 0x0001, 0x0100, (0, 0, 0), 0x1009, 2, 400, 4, 50000,
    (0, 0, 0, 0, 0), 0, 0, 0, 0⟩

/-- A healthy device: full-size descriptor read, matching descriptor, a
7-byte feature-report read decoding to 25000, successful sends. -/
def fixtureDevice : hid_device :=
  ⟨34, matchingDescriptor, 7, [1, 0xA8, 0x61, 0, 0, 0, 0], 0⟩

/-- The healthy device, listed under the Apple Pro Display XDR identity. -/
def fixtureInfo : hid_device_info := ⟨0x05ac, 0x9243, some fixtureDevice⟩

/-- A device whose feature-report read reports only 3 bytes transferred. -/
def shortReadDevice : hid_device :=
  ⟨34, matchingDescriptor, 3, [1, 0xA8, 0x61, 0, 0, 0, 0], 0⟩

/-- A device whose feature-report read decodes to `2 ^ 31` (byte 4 is
`0x80`). -/
def highValueDevice : hid_device :=
  ⟨34, matchingDescriptor, 7, [1, 0, 0, 0, 0x80, 0, 0], 0⟩

/-- The high-value device, listed under the Apple Pro Display XDR
identity. -/
def highValueInfo : hid_device_info := ⟨0x05ac, 0x9243, some highValueDevice⟩

/-- A device whose descriptor read returns only 17 of the 34 expected
bytes. -/
def shortDescriptorDevice : hid_device :=
  ⟨17, matchingDescriptor, 7, [1, 0xA8, 0x61, 0, 0, 0, 0], 0⟩

/-- The short-descriptor device, listed under the Apple Pro Display XDR
identity. -/
def shortDescriptorInfo : hid_device_info := ⟨0x05ac, 0x9243, some shortDescriptorDevice⟩

theorem checkRow_spec (f : Nat → Bool) (base : Nat) :
    ∀ k, checkRow f base k = true → ∀ j, j < k → f (base + j) = true := by
  intro k
  induction k with
  | zero => intro _ j hj; omega
  | succ k ih =>
    intro h j hj
    have h' : (f (base + k) && checkRow f base k) = true := h
    simp only [Bool.and_eq_true] at h'
    rcases Nat.lt_succ_iff_lt_or_eq.mp hj with hlt | rfl
    · exact ih h'.2 j hlt
    · exact h'.1

theorem checkRows_spec (f : Nat → Bool) (c lo : Nat) :
    ∀ r, checkRows f c lo r = true →
      ∀ i, c * lo ≤ i → i < c * (lo + r) → f i = true := by
  intro r
  induction r with
  | zero => intro _ i hlo hi; rw [Nat.add_zero] at hi; omega
  | succ r ih =>
    intro h i hlo hi
    have h' : (checkRow f (c * (lo + r)) c && checkRows f c lo r) = true := h
    simp only [Bool.and_eq_true] at h'
    by_cases hlt : i < c * (lo + r)
    · exact ih h'.2 i hlo hlt
    · have hc : 0 < c := by
        rcases Nat.eq_zero_or_pos c with rfl | hc
        · omega
        · exact hc
      have h2 : i / c = lo + r := by
        have hub : i / c < lo + r + 1 :=
          Nat.div_lt_of_lt_mul (show i < c * (lo + r + 1) from hi)
        have hlb : lo + r ≤ i / c :=
          (Nat.le_div_iff_mul_le hc).mpr (by rw [Nat.mul_comm (lo + r) c]; omega)
        omega
      have h3 : c * (i / c) + i % c = i := Nat.div_add_mod i c
      have h4 : i % c < c := Nat.mod_lt i hc
      have := checkRow_spec f (c * (lo + r)) c h'.1 (i % c) h4
      rw [h2] at h3
      rw [h3] at this
      exact this

set_option maxRecDepth 10000

/-! Exhaustive verification of `to_percent_brightness` over the whole
precondition range `absolute ∈ [400, 50000]` (offsets `x ∈ [0, 49600]`,
49601 = 257 × 193 cells), split into row blocks so that each kernel
reduction stays small. -/

theorem percentCheck0 : checkRows checkPercentCell 257 0 16 = true := by decide!

theorem percentCheck1 : checkRows checkPercentCell 257 16 16 = true := by decide!

theorem percentCheck2 : checkRows checkPercentCell 257 32 16 = true := by decide!

theorem percentCheck3 : checkRows checkPercentCell 257 48 16 = true := by decide!

theorem percentCheck4 : checkRows checkPercentCell 257 64 16 = true := by decide!

theorem percentCheck5 : checkRows checkPercentCell 257 80 16 = true := by decide!

theorem percentCheck6 : checkRows checkPercentCell 257 96 16 = true := by decide!

theorem percentCheck7 : checkRows checkPercentCell 257 112 16 = true := by decide!

theorem percentCheck8 : checkRows checkPercentCell 257 128 16 = true := by decide!

theorem percentCheck9 : checkRows checkPercentCell 257 144 16 = true := by decide!

theorem percentCheck10 : checkRows checkPercentCell 257 160 16 = true := by decide!

theorem percentCheck11 : checkRows checkPercentCell 257 176 16 = true := by decide!

theorem percentCheck12 : checkRows checkPercentCell 257 192 1 = true := by decide!

theorem to_percent_table (x : Nat) (hx : x < 49601) : checkPercentCell x = true := by
  by_cases h0 : x < 4112
  · exact checkRows_spec _ 257 0 16 percentCheck0 x (by omega) (by omega)
  by_cases h1 : x < 8224
  · exact checkRows_spec _ 257 16 16 percentCheck1 x (by omega) (by omega)
  by_cases h2 : x < 12336
  · exact checkRows_spec _ 257 32 16 percentCheck2 x (by omega) (by omega)
  by_cases h3 : x < 16448
  · exact checkRows_spec _ 257 48 16 percentCheck3 x (by omega) (by omega)
  by_cases h4 : x < 20560
  · exact checkRows_spec _ 257 64 16 percentCheck4 x (by omega) (by omega)
  by_cases h5 : x < 24672
  · exact checkRows_spec _ 257 80 16 percentCheck5 x (by omega) (by omega)
  by_cases h6 : x < 28784
  · exact checkRows_spec _ 257 96 16 percentCheck6 x (by omega) (by omega)
  by_cases h7 : x < 32896
  · exact checkRows_spec _ 257 112 16 percentCheck7 x (by omega) (by omega)
  by_cases h8 : x < 37008
  · exact checkRows_spec _ 257 128 16 percentCheck8 x (by omega) (by omega)
  by_cases h9 : x < 41120
  · exact checkRows_spec _ 257 144 16 percentCheck9 x (by omega) (by omega)
  by_cases h10 : x < 45232
  · exact checkRows_spec _ 257 160 16 percentCheck10 x (by omega) (by omega)
  by_cases h11 : x < 49344
  · exact checkRows_spec _ 257 176 16 percentCheck11 x (by omega) (by omega)
  exact checkRows_spec _ 257 192 1 percentCheck12 x (by omega) (by omega)

/-- The `cond`-form table entry, restated with a propositional `if`. -/
theorem percentTableEntry_eq (x : Nat) :
    percentTableEntry x = x / 496 - (if x = 26288 ∨ x = 29264 then 1 else 0) := by
  by_cases h1 : x = 26288
  · subst h1; decide
  by_cases h2 : x = 29264
  · subst h2; decide
  cases hb1 : Nat.beq x 26288 with
  | true => exact absurd (Nat.eq_of_beq_eq_true hb1) h1
  | false =>
    cases hb2 : Nat.beq x 29264 with
    | true => exact absurd (Nat.eq_of_beq_eq_true hb2) h2
    | false => simp [percentTableEntry, hb1, hb2, h1, h2]

/-- Closed characterisation of `to_percent_brightness` on its precondition
range: the exact integer `⌊(absolute - 400) / 496⌋`, minus one exactly at the
two inputs where the binary32 intermediate falls below the exact quotient. -/
theorem to_percent_brightness_eq (a : Nat) (h1 : 400 ≤ a) (h2 : a ≤ 50000) :
    to_percent_brightness a =
      (a - 400) / 496 - (if a = 26688 ∨ a = 29664 then 1 else 0) := by
  have ht := to_percent_table (a - 400) (by omega)
  have h' : to_percent_brightness ((a - 400) + 400) = percentTableEntry (a - 400) := by
    simpa [checkPercentCell] using ht
  rw [show (a - 400) + 400 = a from by omega] at h'
  rw [h', percentTableEntry_eq]
  have : (a - 400 = 26288 ∨ a - 400 = 29264) ↔ (a = 26688 ∨ a = 29664) := by omega
  by_cases hc : a = 26688 ∨ a = 29664
  · rw [if_pos (this.mpr hc), if_pos hc]
  · rw [if_neg (fun h => hc (this.mp h)), if_neg hc]

/-! General helper lemmas about the embedded operations. -/

/-- Closed form of `to_absolute_brightness`: the division by 100 is exact. -/
theorem to_absolute_brightness_closed (p : Nat) :
    to_absolute_brightness p = 496 * p + 400 := by
  show p * BRIGHTNESS_RANGE / 100 + BRIGHTNESS_MIN = 496 * p + 400
  rw [show BRIGHTNESS_RANGE = 496 * 100 from rfl,
    show BRIGHTNESS_MIN = 400 from rfl, ← Nat.mul_assoc,
    Nat.mul_div_cancel _ (by norm_num : (0 : Nat) < 100), Nat.mul_comm]

/-- The truncating cast in `to_percent_brightness` keeps the result below
256 (the width of `uint8_t`), whatever the input. -/
theorem to_percent_brightness_lt (x : Nat) : to_percent_brightness x < 256 := by
  unfold to_percent_brightness f32toUInt8
  exact Nat.mod_lt _ (by norm_num)

/-- A little-endian 32-bit decode of bytes is below `2 ^ 32`. -/
theorem le32_decode_lt (bytes : List (Fin 256)) : le32_decode bytes < 2 ^ 32 := by
  unfold le32_decode
  have h0 := (bytes.getD 0 0).isLt
  have h1 := (bytes.getD 1 0).isLt
  have h2 := (bytes.getD 2 0).isLt
  have h3 := (bytes.getD 3 0).isLt
  omega

/-- The assert expression of `hid_set_brightness`, as a proposition. -/
theorem hid_set_brightness_assert_iff (b : Nat) :
    hid_set_brightness_assert b = true ↔ 400 ≤ b ∧ b ≤ 50000 := by
  simp [hid_set_brightness_assert, BRIGHTNESS_MIN, BRIGHTNESS_MAX]

/-- A candidate that alone yields no match is skipped by the matcher loop:
the loop's result on `it :: post` is its result on `post`. -/
theorem hid_open_loop_skip (it : hid_device_info) (post : List hid_device_info)
    (h : (hid_open_loop [it]).1 = none) :
    (hid_open_loop (it :: post)).1 = (hid_open_loop post).1 := by
  cases happ : is_apple_pro_display_xdr_device it with
  | false => simp [hid_open_loop, happ]
  | true =>
    cases hop : it.open_result with
    | none => simp [hid_open_loop, happ, hop]
    | some device =>
      cases hmatch : hid_is_apple_pro_display_xdr_brightness_control_device device with
      | false => simp [hid_open_loop, happ, hop, hmatch]
      | true => simp [hid_open_loop, happ, hop, hmatch] at h

/-- Skipping a non-matching candidate anywhere in the enumeration leaves the
loop's result unchanged. -/
theorem hid_open_loop_append_skip (pre : List hid_device_info)
    (it : hid_device_info) (post : List hid_device_info)
    (h : (hid_open_loop [it]).1 = none) :
    (hid_open_loop (pre ++ it :: post)).1 = (hid_open_loop (pre ++ post)).1 := by
  induction pre with
  | nil => simpa using hid_open_loop_skip it post h
  | cons p pre ih =>
    cases happ : is_apple_pro_display_xdr_device p with
    | false => simp [hid_open_loop, happ, ih]
    | true =>
      cases hop : p.open_result with
      | none => simp [hid_open_loop, happ, hop, ih]
      | some device =>
        cases hmatch : hid_is_apple_pro_display_xdr_brightness_control_device device with
        | false => simp [hid_open_loop, happ, hop, hmatch, ih]
        | true => simp [hid_open_loop, happ, hop, hmatch]

/-! The claims. -/

/-- C1 (counterexample): at absolute value 26688 the code returns 52, while
`⌊(26688 - 400) / 49600 * 100⌋ = ⌊26288 / 496⌋ = 53` exactly: the binary32
rounding of `26288 / 49600` falls just below `0.53`, so the truncated product
loses one unit.  The claimed identity
`to_percent_brightness a = ⌊(a - 400) / 49600 * 100⌋` therefore fails. -/
theorem C1_counterexample :
    to_percent_brightness 26688 = 52 ∧ (26688 - 400) * 100 / 49600 = 53 := by
  constructor
  · decide
  · decide

/-- C1 (amended): for every absolute value `a ∈ [400, 50000]`,
`to_percent_brightness a` equals `⌊(a - 400) * 100 / 49600⌋`, except at
`a = 26688` and `a = 29664` where it is one less (binary32 double rounding);
the result always lies in `[0, 100]`, and `to_percent_brightness 25000 = 49`
as the spec's example states. -/
theorem C1_amended (a : Nat) (h1 : 400 ≤ a) (h2 : a ≤ 50000) :
    (to_percent_brightness a =
      (if a = 26688 ∨ a = 29664 then (a - 400) * 100 / 49600 - 1
       else (a - 400) * 100 / 49600)) ∧
    to_percent_brightness a ≤ 100 ∧ to_percent_brightness 25000 = 49 := by
  have he := to_percent_brightness_eq a h1 h2
  have hdiv : (a - 400) * 100 / 49600 = (a - 400) / 496 := by omega
  refine ⟨?_, ?_, by decide⟩
  · rw [hdiv]
    by_cases hc : a = 26688 ∨ a = 29664
    · rw [if_pos hc]; rw [if_pos hc] at he; exact he
    · rw [if_neg hc]; rw [if_neg hc, Nat.sub_zero] at he; exact he
  · have : (a - 400) / 496 ≤ 100 := by omega
    rw [he]
    by_cases hc : a = 26688 ∨ a = 29664
    · rw [if_pos hc]; omega
    · rw [if_neg hc]; omega

/-- C1 (witness): the amended statement evaluated at the spec's own example
`a = 25000`, which is not an exceptional point. -/
theorem C1_amended_witness :
    to_percent_brightness 25000 = (25000 - 400) * 100 / 49600 ∧
    to_percent_brightness 25000 ≤ 100 := by
  have h := C1_amended 25000 (by decide) (by decide)
  refine ⟨?_, h.2.1⟩
  have h1 := h.1
  rw [if_neg (by decide)] at h1
  exact h1

/-- C2: a device's descriptor is accepted if and only if all five conditions
hold — `usage_page = 0x8005`, `report_usage = 0x1009`,
`report_id >> 8 = 0x1`, `logical_minimum = 400`, `logical_maximum = 50000` —
and whenever any one of the five fails (in particular with the other four
intact), the device is rejected. -/
theorem C2_descriptor_match_iff (d : hid_report_descriptor) :
    (descriptor_matches d = true ↔
      (d.usage_page = 0x8005 ∧ d.report_usage = 0x1009 ∧ d.report_id >>> 8 = 0x1 ∧
       d.logical_minimum = 400 ∧ d.logical_maximum = 50000)) ∧
    ((¬ d.usage_page = 0x8005 ∨ ¬ d.report_usage = 0x1009 ∨ ¬ d.report_id >>> 8 = 0x1 ∨
      ¬ d.logical_minimum = 400 ∨ ¬ d.logical_maximum = 50000) →
      descriptor_matches d = false) := by
  have hiff : descriptor_matches d = true ↔
      (d.usage_page = 0x8005 ∧ d.report_usage = 0x1009 ∧ d.report_id >>> 8 = 0x1 ∧
       d.logical_minimum = 400 ∧ d.logical_maximum = 50000) := by
    simp [descriptor_matches, BRIGHTNESS_REPORT_PAGE, BRIGHTNESS_REPORT_USAGE,
      BRIGHTNESS_REPORT_ID, BRIGHTNESS_MIN, BRIGHTNESS_MAX, and_assoc]
  refine ⟨hiff, fun h => ?_⟩
  rcases hb : descriptor_matches d with _ | _
  · rfl
  · exact absurd (hiff.mp hb) (by tauto)

/-- C2 (witness): a descriptor with `usage_page` flipped to 0x8006 and the
other four conditions intact is rejected. -/
theorem C2_descriptor_match_iff_witness :
    descriptor_matches
      ⟨0x8006, 0x0001, 0x0001, 0x0100, (0, 0, 0), 0x1009, 2, 400, 4, 50000,
        (0, 0, 0, 0, 0), 0, 0, 0, 0⟩ = false :=
  (C2_descriptor_match_iff _).2 (Or.inl (by decide))

/-- C3 (code evaluation at the failing input): the claim says any `set`
argument with trailing characters other than a lone `%` is rejected with
status 1 and no device interaction.  The code's rejection condition
`(parameter == last) || (!(*last == '%' && *(last+1) == '\0') && *value <= 100)`
lets `"401x"` through (trailing junk, but the value 401 exceeds 100), parsing
it as the absolute value 401, after which `set` proceeds to enumerate
devices: with none attached it exits 2 having performed device interaction,
and with a device attached it would write brightness 401. -/
theorem C3_trailing_junk_accepted :
    parse_brightness_parameter ['4', '0', '1', 'x'] = some (401, false) ∧
    run_set ['4', '0', '1', 'x'] [] = (2, [DeviceAction.enumerate]) := by
  constructor
  · decide
  · decide

/-- C4 (counterexample): a feature-report read reporting 3 bytes transferred
(neither negative nor the full `sizeof(brightness_feature_report) = 7`) is
not treated as an error: `hid_get_brightness` decodes and returns the buffer
contents (25000 here), because the code only compares the transport's return
value against 0, never against the report size. -/
theorem C4_counterexample :
    hid_get_brightness shortReadDevice = 25000 ∧
    shortReadDevice.get_report_ret ≠ (brightness_feature_report_size : Int) ∧
    0 ≤ shortReadDevice.get_report_ret := by
  refine ⟨by decide, by decide, by decide⟩

/-- C4 (amended): `hid_get_brightness` returns the error value `-1` exactly
when the transport read returns a negative count; any non-negative count —
including one different from the 7-byte report size — is accepted, and the
little-endian 32-bit brightness field is decoded and returned (as
`int32_t`). -/
theorem C4_amended (device : hid_device) :
    (device.get_report_ret < 0 → hid_get_brightness device = -1) ∧
    (0 ≤ device.get_report_ret →
      hid_get_brightness device =
        int32_of_uint32 (le32_decode (device.get_report_buffer.drop 1))) := by
  constructor
  · intro h; simp [hid_get_brightness, h]
  · intro h
    unfold hid_get_brightness
    rw [if_neg (by omega)]

/-- C4 (witness): the amended statement applied to a failed read and to the
3-byte short read. -/
theorem C4_amended_witness :
    hid_get_brightness ⟨34, matchingDescriptor, -1, [], 0⟩ = -1 ∧
    hid_get_brightness shortReadDevice = 25000 := by
  constructor
  · exact (C4_amended _).1 (by decide)
  · rw [(C4_amended shortReadDevice).2 (by decide)]; decide

/-- C5: `to_absolute_brightness p = ⌊p * 49600 / 100⌋ + 400` with integer
truncation, its result lies in `[400, 50000]` for `p ∈ [0, 100]`,
`to_absolute_brightness 30 = 15280`, and `set 30%` on a matched device sends
exactly the 7-byte report `01 B0 3B 00 00 00 00` — report id `0x1` and 15280
little-endian. -/
theorem C5_to_absolute_and_set30 (p : Nat) (hp : p ≤ 100) :
    (to_absolute_brightness p = p * 49600 / 100 + 400 ∧
     400 ≤ to_absolute_brightness p ∧ to_absolute_brightness p ≤ 50000) ∧
    to_absolute_brightness 30 = 15280 ∧
    (∀ (devices : List hid_device_info) (device : hid_device) (tr : List DeviceAction),
      hid_open_apple_pro_display_xdr_brightness_control_device devices =
        (some device, tr) →
      (set_brightness devices 30 true).2 =
        tr ++ [DeviceAction.sendReport [0x01, 0xB0, 0x3B, 0, 0, 0, 0]]) := by
  refine ⟨⟨rfl, ?_, ?_⟩, by decide, ?_⟩
  · rw [to_absolute_brightness_closed]; omega
  · rw [to_absolute_brightness_closed]
    have := Nat.mul_le_mul_left 496 hp
    omega
  · intro devices device tr hopen
    have hb : brightness_feature_report_bytes (set_brightness_target 30 true) =
        [0x01, 0xB0, 0x3B, 0, 0, 0, 0] := by decide
    have hb2 : (hid_set_brightness device (set_brightness_target 30 true)).2 =
        brightness_feature_report_bytes (set_brightness_target 30 true) := by
      unfold hid_set_brightness
      split <;> rfl
    unfold set_brightness
    rw [if_neg (by decide), if_neg (by decide), hopen]
    simp [hb2, hb]

/-- C5 (witness): applied at `p = 30` with the healthy fixture device. -/
theorem C5_witness :
    to_absolute_brightness 30 = 15280 ∧
    (set_brightness [fixtureInfo] 30 true).2 =
      [DeviceAction.enumerate, DeviceAction.openPath, DeviceAction.readDescriptor] ++
        [DeviceAction.sendReport [0x01, 0xB0, 0x3B, 0, 0, 0, 0]] := by
  have h := C5_to_absolute_and_set30 30 (by decide)
  exact ⟨h.2.1, h.2.2 [fixtureInfo] fixtureDevice
    [DeviceAction.enumerate, DeviceAction.openPath, DeviceAction.readDescriptor] (by decide)⟩

/-- C6: for every absolute value `a ∈ [400, 50000]` the round trip
`to_absolute_brightness (to_percent_brightness a)` lies within 496 of `a`
(one percentage-point quantisation step — the bound is attained, with
distance exactly 496, at the two binary32 double-rounding points), and
`to_percent_brightness a` lies in `[0, 100]`. -/
theorem C6_roundtrip (a : Nat) (h1 : 400 ≤ a) (h2 : a ≤ 50000) :
    ((a : Int) - (to_absolute_brightness (to_percent_brightness a) : Int)).natAbs ≤ 496 ∧
    to_percent_brightness a ≤ 100 := by
  have he := to_percent_brightness_eq a h1 h2
  by_cases hc : a = 26688 ∨ a = 29664
  · rcases hc with rfl | rfl
    · exact ⟨by decide, by decide⟩
    · exact ⟨by decide, by decide⟩
  · rw [if_neg hc, Nat.sub_zero] at he
    have hdm := Nat.div_add_mod (a - 400) 496
    have hmlt : (a - 400) % 496 < 496 := Nat.mod_lt _ (by norm_num)
    constructor
    · rw [he, to_absolute_brightness_closed]
      omega
    · rw [he]; omega

/-- C6 (witness): the round-trip bound evaluated at `a = 25000`. -/
theorem C6_roundtrip_witness :
    ((25000 : Int) -
      (to_absolute_brightness (to_percent_brightness 25000) : Int)).natAbs ≤ 496 ∧
    to_percent_brightness 25000 ≤ 100 :=
  C6_roundtrip 25000 (by decide) (by decide)

/-- C7: a `set` whose parsed value is out of its kind's range returns the
input-error status 1 with an empty transport trace — no enumerate, open,
descriptor read or report send is attempted, whatever devices are
attached. -/
theorem C7_out_of_range_input_error (devices : List hid_device_info) (value : Nat) :
    (100 < value → set_brightness devices value true = (1, [])) ∧
    ((value < 400 ∨ 50000 < value) → set_brightness devices value false = (1, [])) := by
  constructor
  · intro h
    unfold set_brightness
    rw [if_pos ⟨rfl, h⟩]
  · intro h
    unfold set_brightness
    rw [if_neg (by simp), if_pos ⟨by simp, h⟩]

/-- C7 (witness): `set 50001` (absolute, out of range) returns status 1 and
performs no device interaction even with a healthy device attached. -/
theorem C7_witness :
    set_brightness [fixtureInfo] 50001 false = (1, []) ∧
    set_brightness [fixtureInfo] 101 true = (1, []) :=
  ⟨(C7_out_of_range_input_error [fixtureInfo] 50001).2 (Or.inr (by decide)),
   (C7_out_of_range_input_error [fixtureInfo] 101).1 (by decide)⟩

/-- C8: a candidate whose descriptor read returns a byte count different
from `sizeof(struct hid_report_descriptor) = 34` is treated as a non-match —
no field of the descriptor is consulted — and enumeration continues with the
remaining candidates: the matcher's result on a list containing such a
candidate equals its result with the candidate removed (the model is a total
function, so no crash or undefined read occurs). -/
theorem C8_short_descriptor_read_is_nonmatch
    (pre post : List hid_device_info) (it : hid_device_info) (device : hid_device)
    (hopen : it.open_result = some device)
    (hsize : device.descriptor_read_ret ≠ (hid_report_descriptor_size : Int)) :
    hid_is_apple_pro_display_xdr_brightness_control_device device = false ∧
    (hid_open_apple_pro_display_xdr_brightness_control_device (pre ++ it :: post)).1 =
      (hid_open_apple_pro_display_xdr_brightness_control_device (pre ++ post)).1 := by
  have hm : hid_is_apple_pro_display_xdr_brightness_control_device device = false := by
    simp [hid_is_apple_pro_display_xdr_brightness_control_device, hsize]
  refine ⟨hm, ?_⟩
  have hskip : (hid_open_loop [it]).1 = none := by
    cases happ : is_apple_pro_display_xdr_device it with
    | false => simp [hid_open_loop, happ]
    | true => simp [hid_open_loop, happ, hopen, hm]
  simpa [hid_open_apple_pro_display_xdr_brightness_control_device]
    using hid_open_loop_append_skip pre it post hskip

/-- C8 (witness): a 17-byte descriptor read is skipped and the healthy
device after it is still found. -/
theorem C8_witness :
    hid_is_apple_pro_display_xdr_brightness_control_device shortDescriptorDevice = false ∧
    (hid_open_apple_pro_display_xdr_brightness_control_device
        ([] ++ shortDescriptorInfo :: [fixtureInfo])).1 =
      (hid_open_apple_pro_display_xdr_brightness_control_device ([] ++ [fixtureInfo])).1 :=
  C8_short_descriptor_read_is_nonmatch [] [fixtureInfo] shortDescriptorInfo
    shortDescriptorDevice rfl (by decide)

/-- C9: `hid_get_brightness` funnels the decoded `uint32_t` through an
`int32_t`, and `print_brightness` treats every negative value as a transport
failure: a successful read decoding to `2 ^ 31` or more wraps negative and is
reported as exit 3 with nothing printed, and every value `get` does emit is
below `2 ^ 31`. -/
theorem C9_int32_overflow_reported_as_error :
    (∀ (devices : List hid_device_info) (device : hid_device) (as_pct : Bool),
      (hid_open_apple_pro_display_xdr_brightness_control_device devices).1 =
        some device →
      0 ≤ device.get_report_ret →
      2 ^ 31 ≤ le32_decode (device.get_report_buffer.drop 1) →
      print_brightness devices as_pct = (3, none)) ∧
    (∀ (devices : List hid_device_info) (as_pct : Bool) (n : Nat),
      (print_brightness devices as_pct).2 = some n → n < 2 ^ 31) := by
  constructor
  · intro devices device as_pct hopen hret hdec
    have hlt := le32_decode_lt (device.get_report_buffer.drop 1)
    have hget : hid_get_brightness device < 0 := by
      unfold hid_get_brightness int32_of_uint32
      rw [if_neg (by omega), if_neg (by omega)]
      omega
    unfold print_brightness
    rw [hopen]
    simp only [hget, if_pos]
  · intro devices as_pct n h
    unfold print_brightness at h
    cases hopen : (hid_open_apple_pro_display_xdr_brightness_control_device devices).1 with
    | none => rw [hopen] at h; simp at h
    | some device =>
      rw [hopen] at h
      simp only at h
      by_cases hneg : hid_get_brightness device < 0
      · rw [if_pos hneg] at h; simp at h
      · rw [if_neg hneg] at h
        cases as_pct with
        | true =>
          rw [if_pos rfl] at h
          have := to_percent_brightness_lt (hid_get_brightness device).toNat
          simp only [Option.some.injEq] at h
          omega
        | false =>
          rw [if_neg (by simp)] at h
          simp only [Option.some.injEq] at h
          have hlt := le32_decode_lt (device.get_report_buffer.drop 1)
          unfold hid_get_brightness int32_of_uint32 at hneg h
          by_cases hr : device.get_report_ret < 0
          · rw [if_pos hr] at hneg; omega
          · rw [if_neg hr] at hneg h
            by_cases hsmall : le32_decode (device.get_report_buffer.drop 1) < 2 ^ 31
            · rw [if_pos hsmall] at h; omega
            · rw [if_neg hsmall] at hneg; omega

/-- C9 (witness): a device decoding to exactly `2 ^ 31` (byte 4 = 0x80)
yields exit 3 and no output. -/
theorem C9_witness :
    print_brightness [highValueInfo] false = (3, none) :=
  C9_int32_overflow_reported_as_error.1 [highValueInfo] highValueDevice false
    (by decide) (by decide) (by decide)

/-- C10: on the percentage path the value handed to `hid_set_brightness` is
`to_absolute_brightness value`, which lies in `[400, 50000]` whenever
`value ≤ 100`, so the assert at the top of `hid_set_brightness` holds; on the
absolute path it is the value itself, in range after the range check. -/
theorem C10_assert_cannot_fail (value : Nat) :
    (set_brightness_target value true = to_absolute_brightness value) ∧
    (value ≤ 100 →
      hid_set_brightness_assert (set_brightness_target value true) = true) ∧
    (400 ≤ value → value ≤ 50000 →
      hid_set_brightness_assert (set_brightness_target value false) = true) := by
  refine ⟨rfl, ?_, ?_⟩
  · intro h
    rw [show set_brightness_target value true = to_absolute_brightness value from rfl,
      hid_set_brightness_assert_iff, to_absolute_brightness_closed]
    have := Nat.mul_le_mul_left 496 h
    omega
  · intro h1 h2
    rw [show set_brightness_target value false = value from rfl,
      hid_set_brightness_assert_iff]
    exact ⟨h1, h2⟩

/-- C10 (witness): the assert holds for `set 30%` and for `set 401`. -/
theorem C10_witness :
    hid_set_brightness_assert (set_brightness_target 30 true) = true ∧
    hid_set_brightness_assert (set_brightness_target 401 false) = true :=
  ⟨(C10_assert_cannot_fail 30).2.1 (by decide),
   (C10_assert_cannot_fail 401).2.2 (by decide) (by decide)⟩

end Apdbctl
